import Mathlib

/-!
Shallow embedding of the `pmc-collector` device-counter sampling tool
(`src/pmc-collector/main.cpp`) and proofs about its behaviour.

The rocprofiler hardware layer is modelled by the `Hw` structure: its fields
record, for every possible call the tool makes, what the hardware would answer
(supported-counter catalog, per-counter dimension metadata, call statuses,
sampling results).  The mutable members of `device_collector` become the
`CollectorState` record, threaded explicitly.  C++ exceptions thrown by
`ROCPROFILER_CALL` / `std::map::at` become `Except String` results.  The
`__FILE__`/`__LINE__` part of the thrown message is omitted; the stringified
call expression and the status string are kept.
-/

namespace PmcCollector

/-- One `rocprofiler_record_dimension_info_t`: axis name and instance size. -/
structure DimInfo where
  name : String
  instance_size : Nat
  deriving DecidableEq

/-- One `rocprofiler_record_counter_t`: instance id and counter value.
The C++ value is a `double`; the claims under study concern only control
flow (ordering, summation structure, comparisons), so it is modelled as `Int`. -/
structure Record where
  id : Nat
  counter_value : Int
  deriving DecidableEq

/-- A vector-resize as `std::vector::resize` behaves: keep a prefix, pad with
value-initialized (zero) records. -/
def listResize (l : List Record) (n : Nat) : List Record :=
  l.take n ++ List.replicate (n - l.length) { id := 0, counter_value := 0 }

/-- `rocprofiler_agent_v0_t`, reduced to the fields the tool reads. -/
structure AgentInfo where
  type : Nat
  id : Nat
  deriving DecidableEq

def ROCPROFILER_AGENT_TYPE_CPU : Nat := 1
def ROCPROFILER_AGENT_TYPE_GPU : Nat := 2
def ROCPROFILER_AGENT_INFO_VERSION_0 : Nat := 0

/-- The rocprofiler hardware layer, as the deterministic answers it would give
to each call the collector makes.  Counter handles and profile handles are
`Nat`. -/
structure Hw where
  /-- the counter handles the `rocprofiler_iterate_agent_supported_counters`
  callback collects into `gpu_counters` inside `get_supported_counters`. -/
  counterHandles : List Nat
  /-- `rocprofiler_query_counter_info`: the `version.name` of a counter handle. -/
  counterName : Nat → String
  /-- status of `rocprofiler_iterate_agent_supported_counters`. -/
  iterateCountersStatus : Nat
  /-- status of `rocprofiler_query_counter_info`, per counter handle. -/
  queryCounterInfoStatus : Nat → Nat
  /-- `rocprofiler_iterate_counter_dimensions` output per counter handle. -/
  dims : Nat → List DimInfo
  /-- `rocprofiler_query_record_counter_id`: record instance id to counter handle. -/
  recordCounterId : Nat → Nat
  /-- status of `rocprofiler_create_context`. -/
  createContextStatus : Nat
  /-- status of `rocprofiler_configure_device_counting_service`. -/
  configureStatus : Nat
  /-- status of `rocprofiler_create_profile_config`, per resolved handle list. -/
  createProfileStatus : List Nat → Nat
  /-- status of `rocprofiler_query_available_agents`. -/
  queryAgentsStatus : Nat
  /-- the `rocprofiler_agent_version_t` the enumeration callback receives. -/
  enumVersion : Nat
  /-- the agent array the enumeration callback receives. -/
  enumAgents : List AgentInfo
  /-- `rocprofiler_get_status_string`. -/
  statusString : Nat → String
  /-- the `out_size` value `rocprofiler_sample_device_counting_service`
  reports, given (profile handle, buffer capacity). -/
  sampleActual : Nat → Nat → Nat
  /-- the records that same call writes into the buffer prefix. -/
  sampleWritten : Nat → Nat → List Record

/-- The mutable members of `device_collector` (plus a fresh-handle counter
standing for rocprofiler's allocation of distinct profile handles; handle `0`
is the sentinel "no profile", so fresh handles start at 1). -/
structure CollectorState where
  cached_profiles : List (List String × Nat)
  profile_sizes : List (Nat × Nat)
  id_to_name : List (Nat × String)
  profile : Nat
  nextProfileHandle : Nat
  deriving DecidableEq

/-- `device_collector` member initializers: empty maps, `profile_ = 0`. -/
def init_collector_state : CollectorState :=
  { cached_profiles := [], profile_sizes := [], id_to_name := [],
    profile := 0, nextProfileHandle := 1 }

/-- First-match association-list lookup (`std::map::find` semantics). -/
def assocFind {α β : Type} [DecidableEq α] : List (α × β) → α → Option β
  | [], _ => none
  | kv :: rest, k => if kv.1 = k then some kv.2 else assocFind rest k

/-- `std::map::emplace`: insert only when the key is absent. -/
def emplaceAssoc {α β : Type} [DecidableEq α] (m : List (α × β)) (k : α) (v : β) :
    List (α × β) :=
  match assocFind m k with
  | some _ => m
  | none => m ++ [(k, v)]

/-- The name-to-handle catalog `get_supported_counters` returns whenever its
checked calls succeed: iterate the collected handles, query each one's name,
`emplace` it into the map (see `get_supported_counters_ok`). -/
def Hw.supported (hw : Hw) : List (String × Nat) :=
  hw.counterHandles.foldl (fun out c => emplaceAssoc out (hw.counterName c) c) []

/-- The message `ROCPROFILER_CALL` builds for the exception it throws:
stringified call expression, caller message, status string. -/
def rocErrMsg (op msg status_msg : String) : String :=
  "[" ++ op ++ "] " ++ msg ++ " failure (" ++ status_msg ++ ")"

/-- The `ROCPROFILER_CALL` macro: non-success status throws, success is a no-op. -/
def rocprofiler_call (status : Nat) (op msg status_msg : String) : Except String Unit :=
  if status ≠ 0 then .error (rocErrMsg op msg status_msg) else .ok ()

/-- The per-counter loop of `get_supported_counters`: each collected handle
gets a checked `rocprofiler_query_counter_info` call, then its name is
`emplace`d into the map. -/
def query_counters_loop (hw : Hw) (out : List (String × Nat)) :
    List Nat → Except String (List (String × Nat))
  | [] => .ok out
  | c :: rest =>
    match rocprofiler_call (hw.queryCounterInfoStatus c)
        "rocprofiler_query_counter_info(counter, ROCPROFILER_COUNTER_INFO_VERSION_0, ...)"
        "Could not query info for counter"
        (hw.statusString (hw.queryCounterInfoStatus c)) with
    | .error e => .error e
    | .ok _ => query_counters_loop hw (emplaceAssoc out (hw.counterName c) c) rest

/-- `device_collector::get_supported_counters`: a checked
`rocprofiler_iterate_agent_supported_counters` call collects the handles,
then each handle's info is queried by a checked call and the name-to-handle
map is built. -/
def get_supported_counters (hw : Hw) : Except String (List (String × Nat)) :=
  match rocprofiler_call hw.iterateCountersStatus
      "rocprofiler_iterate_agent_supported_counters(agent, ..., &gpu_counters)"
      "Could not fetch supported counters"
      (hw.statusString hw.iterateCountersStatus) with
  | .error e => .error e
  | .ok _ => query_counters_loop hw [] hw.counterHandles

/-- `device_collector::device_collector`: checked context creation followed by
checked counting-service configuration. -/
def device_collector_init (hw : Hw) : Except String CollectorState :=
  match rocprofiler_call hw.createContextStatus "rocprofiler_create_context(&ctx_)"
      "context creation failed" (hw.statusString hw.createContextStatus) with
  | .error e => .error e
  | .ok _ =>
    match rocprofiler_call hw.configureStatus
        "rocprofiler_configure_device_counting_service(ctx_, ...)"
        "Could not setup buffered service" (hw.statusString hw.configureStatus) with
    | .error e => .error e
    | .ok _ => .ok init_collector_state

/-- `device_collector::get_counter_size`: starts at 1, multiplies every
dimension's `instance_size`. -/
def get_counter_size (hw : Hw) (counter : Nat) : Nat :=
  (hw.dims counter).foldl (fun s d => s * d.instance_size) 1

/-- The resolution loop inside `sample_counters` on a cache miss: walk the
requested names, look each up in the supported-counter catalog, collect
resolved handles, accumulate `expected_size`, and emit a
"Counter ... not found" warning for each unknown name. -/
def resolve_counters (hw : Hw) : List String → List Nat × Nat × List String
  | [] => ([], 0, [])
  | c :: rest =>
    let r := resolve_counters hw rest
    match assocFind hw.supported c with
    | none => (r.1, r.2.1, ("Counter " ++ c ++ " not found") :: r.2.2)
    | some h => (h :: r.1, get_counter_size hw h + r.2.1, r.2.2)

/-- The sampling tail of `sample_counters`: `out.resize(expected)`, the
hardware writes a prefix of the buffer and reports `out_size`, then
`out.resize(out_size)`. -/
def run_device_sample (hw : Hw) (p n : Nat) (prev : List Record) : List Record :=
  let buf := listResize prev n
  let written := hw.sampleWritten p n
  listResize (written.take buf.length ++ buf.drop written.length) (hw.sampleActual p n)

/-- `device_collector::sample_counters`.  On a cache miss: fetch the
supported-counter catalog (its two checked calls can abort), resolve names
against it (with warnings), checked `rocprofiler_create_profile_config` on
the resolved handles, cache the profile and its expected size, re-find.
Both paths then look up the expected size (`std::map::at` throws when
absent), set the active profile and sample.  The successful catalog payload
is provably exactly `hw.supported` (`get_supported_counters_ok`), which is
what the resolution loop reads. -/
def sample_counters (hw : Hw) (st : CollectorState) (counters : List String)
    (prev : List Record) : Except String (CollectorState × List Record × List String) :=
  match assocFind st.cached_profiles counters with
  | some p =>
    match assocFind st.profile_sizes p with
    | none => .error "std::out_of_range"
    | some n => .ok ({ st with profile := p }, run_device_sample hw p n prev, [])
  | none =>
    match get_supported_counters hw with
    | .error e => .error e
    | .ok _ =>
    match rocprofiler_call (hw.createProfileStatus (resolve_counters hw counters).1)
        "rocprofiler_create_profile_config(agent_, gpu_counters.data(), gpu_counters.size(), &profile)"
        "Could not create profile"
        (hw.statusString (hw.createProfileStatus (resolve_counters hw counters).1)) with
    | .error e => .error e
    | .ok _ =>
      let p := st.nextProfileHandle
      let st' : CollectorState :=
        { st with
          cached_profiles := emplaceAssoc st.cached_profiles counters p
          profile_sizes := emplaceAssoc st.profile_sizes p (resolve_counters hw counters).2.1
          nextProfileHandle := st.nextProfileHandle + 1 }
      match assocFind st'.profile_sizes p with
      | none => .error "std::out_of_range"
      | some n => .ok ({ st' with profile := p }, run_device_sample hw p n prev,
          (resolve_counters hw counters).2.2)

/-- The index built by `decode_record_name` when `id_to_name_` is empty:
iterate the name-to-handle catalog, `emplace` handle-to-name. -/
def build_id_to_name (supported : List (String × Nat)) : List (Nat × String) :=
  supported.foldl (fun m p => emplaceAssoc m p.2 p.1) []

/-- `device_collector::decode_record_name`: lazily build the handle-to-name
index when empty, then look up the record's counter handle (`.at` throwing on
a missing key becomes `none`). -/
def decode_record_name (hw : Hw) (st : CollectorState) (rec : Record) :
    CollectorState × Option String :=
  let index := if st.id_to_name.isEmpty then build_id_to_name hw.supported else st.id_to_name
  ({ st with id_to_name := index }, assocFind index (hw.recordCounterId rec.id))

/-- `accumulated_values[name] += value` on an association list
(`std::unordered_map::operator[]` with default 0). -/
def addToMap (m : List (String × Int)) (k : String) (v : Int) : List (String × Int) :=
  match m with
  | [] => [(k, v)]
  | kv :: rest => if kv.1 = k then (kv.1, kv.2 + v) :: rest else kv :: addToMap rest k v

/-- Loop body of `process_records`: skip records whose id is zero, decode the
rest (a decode failure aborts, like the C++ exception), accumulate by name. -/
def process_records_go (hw : Hw) :
    CollectorState → List (String × Int) → List Record →
      CollectorState × Option (List (String × Int))
  | st, acc, [] => (st, some acc)
  | st, acc, r :: rest =>
    if r.id ≠ 0 then
      match decode_record_name hw st r with
      | (st', some name) => process_records_go hw st' (addToMap acc name r.counter_value) rest
      | (st', none) => (st', none)
    else process_records_go hw st acc rest

/-- `process_records`: accumulate all records by name to display a single value. -/
def process_records (hw : Hw) (st : CollectorState) (records : List Record) :
    CollectorState × Option (List (String × Int)) :=
  process_records_go hw st [] records

/-- `print_values`: the `- gpu:` block listing each accumulated counter. -/
def print_values (values : List (String × Int)) : List String :=
  "- gpu:" :: values.map (fun p => "  - " ++ p.1 ++ ": " ++ toString p.2)

/-- `values["GRBM_COUNT"]`-style read: value if present, else 0. -/
def lookupD (m : List (String × Int)) (k : String) : Int :=
  (assocFind m k).getD 0

/-- The per-device check inside the polling loop of `main`: for index `i`
onward, read the new `GRBM_COUNT`, clear `valid` on a strict decrease against
the previous value, store the new value. -/
def loop_body (vals : Nat → List (String × Int)) : Nat → List Int → Bool → List Int × Bool
  | _, [], valid => ([], valid)
  | i, prev :: rest, valid =>
    let newv := lookupD (vals i) "GRBM_COUNT"
    let valid1 := if newv < prev then false else valid
    let r := loop_body vals (i + 1) rest valid1
    (newv :: r.1, r.2)

/-- The `while (!done)` polling loop of `main`, one entry of `iterations` per
pass (each entry gives device index to aggregated values for that pass). -/
def run_loop : List Int → Bool → List (Nat → List (String × Int)) → List Int × Bool
  | grbm, valid, [] => (grbm, valid)
  | grbm, valid, vals :: rest =>
    let r := loop_body vals 0 grbm valid
    run_loop r.1 r.2 rest

/-- The `start:` block of `main`: print each device's values and seed
`grbm_counts` with each device's `GRBM_COUNT`. -/
def start_block (startVals : List (List (String × Int))) : List String × List Int :=
  ("start:" :: (startVals.map print_values).flatten,
   startVals.map (fun v => lookupD v "GRBM_COUNT"))

/-- `main` after signal installation, parametrised by the aggregated values
each sample produces (start block, each polling pass, end block).  Returns
(stdout lines, final validity, exit status); `main` falls off the end, so the
exit status is 0. -/
def main_model (startVals : List (List (String × Int)))
    (loopVals : List (Nat → List (String × Int)))
    (endVals : List (List (String × Int))) : List String × Bool × Int :=
  let sb := start_block startVals
  let lr := run_loop sb.2 true loopVals
  (sb.1 ++ ("end:" :: (endVals.map print_values).flatten)
      ++ ["valid: " ++ (if lr.2 then "1" else "0")],
   lr.2, 0)

/-- `device_collector::get_agents`: the callback throws on an unexpected
schema version and keeps only GPU agents; the query status is checked. -/
def get_agents (hw : Hw) : Except String (List AgentInfo) :=
  if hw.enumVersion ≠ ROCPROFILER_AGENT_INFO_VERSION_0 then
    .error "unexpected rocprofiler agent version"
  else
    match rocprofiler_call hw.queryAgentsStatus
        "rocprofiler_query_available_agents(...)" "query available agents"
        (hw.statusString hw.queryAgentsStatus) with
    | .error e => .error e
    | .ok _ => .ok (hw.enumAgents.filter (fun a => a.type == ROCPROFILER_AGENT_TYPE_GPU))

/-- The collector-construction loop in `tool_init`: one `device_collector`
per agent, any constructor exception propagating. -/
def init_collectors (hw : Hw) : List AgentInfo → Except String (List CollectorState)
  | [] => .ok []
  | _ :: rest =>
    match device_collector_init hw with
    | .error e => .error e
    | .ok c =>
      match init_collectors hw rest with
      | .error e => .error e
      | .ok cs => .ok (c :: cs)

/-- `tool_init`: enumerate agents; with none, print "No agents found" and
return -1; otherwise build one collector per agent and return 0.  The `Int`
is the C return value, the `List String` the stderr lines. -/
def tool_init (hw : Hw) : Except String (Int × List String) :=
  match get_agents hw with
  | .error e => .error e
  | .ok agents =>
    if agents.isEmpty then .ok (-1, ["No agents found"])
    else
      match init_collectors hw agents with
      | .error e => .error e
      | .ok _ => .ok (0, [])

/-! ### Specification-side formulas (for refinement comparison) -/

/-- Spec-side: a counter's total instance count, the product of its dimension
instance sizes. -/
def counter_instance_count (hw : Hw) (h : Nat) : Nat :=
  ((hw.dims h).map (fun d => d.instance_size)).prod

/-- Spec-side: the expected record count of a request, the sum over the
successfully resolved counters of their instance counts. -/
def spec_expected_record_count (hw : Hw) (counters : List String) : Nat :=
  ((counters.filterMap (fun c => assocFind hw.supported c)).map
    (counter_instance_count hw)).sum

/-! ### Concrete fixtures used to evaluate the development -/

/-- A small concrete hardware model: two counters, all calls succeeding, a
well-behaved sampler that fills the whole buffer. -/
def hwA : Hw :=
  { counterHandles := [10, 11]
    counterName := fun h => if h = 10 then "GRBM_COUNT" else if h = 11 then "SQ_WAVES" else ""
    iterateCountersStatus := 0
    queryCounterInfoStatus := fun _ => 0
    dims := fun h =>
      if h = 10 then [{ name := "XCC", instance_size := 2 }]
      else if h = 11 then
        [{ name := "SE", instance_size := 2 }, { name := "CU", instance_size := 3 }]
      else []
    recordCounterId := fun rid => if rid = 100 then 10 else if rid = 200 then 11 else 0
    createContextStatus := 0
    configureStatus := 0
    createProfileStatus := fun _ => 0
    queryAgentsStatus := 0
    enumVersion := 0
    enumAgents := [{ type := ROCPROFILER_AGENT_TYPE_GPU, id := 0 },
                   { type := ROCPROFILER_AGENT_TYPE_CPU, id := 1 }]
    statusString := fun s => if s = 0 then "Success" else "Error"
    sampleActual := fun _ c => c
    sampleWritten := fun _ c => List.replicate c { id := 100, counter_value := 5 } }

def hwBadCtx : Hw := { hwA with createContextStatus := 2 }

def hwBadCfg : Hw := { hwA with configureStatus := 3 }

def hwBadProf : Hw := { hwA with createProfileStatus := fun _ => 4 }

def hwBadIter : Hw := { hwA with iterateCountersStatus := 5 }

def hwBadQuery : Hw := { hwA with queryCounterInfoStatus := fun c => if c = 11 then 6 else 0 }

def hwBadVer : Hw := { hwA with enumVersion := 1 }

def hwNoGpu : Hw := { hwA with enumAgents := [{ type := ROCPROFILER_AGENT_TYPE_CPU, id := 0 }] }

/-! ### Association-list lemmas -/

lemma assocFind_append_of_none {α β : Type} [DecidableEq α] {m : List (α × β)} {k : α}
    (h : assocFind m k = none) (l : List (α × β)) : assocFind (m ++ l) k = assocFind l k := by
  induction m with
  | nil => rfl
  | cons kv rest ih =>
    by_cases hk : kv.1 = k
    · simp [assocFind, hk] at h
    · simp only [assocFind, hk, if_false, List.cons_append, if_neg hk] at h ⊢
      exact ih h

lemma emplaceAssoc_find_self {α β : Type} [DecidableEq α] {m : List (α × β)} {k : α} (v : β)
    (h : assocFind m k = none) : assocFind (emplaceAssoc m k v) k = some v := by
  unfold emplaceAssoc
  rw [h, assocFind_append_of_none h]
  simp [assocFind]

lemma listResize_length (l : List Record) (n : Nat) : (listResize l n).length = n := by
  simp only [listResize, List.length_append, List.length_take, List.length_replicate]
  omega

lemma run_device_sample_length (hw : Hw) (p n : Nat) (prev : List Record) :
    (run_device_sample hw p n prev).length = hw.sampleActual p n := by
  simp [run_device_sample, listResize_length]

/-! ### Resolution lemmas -/

lemma get_counter_size_eq_prod (hw : Hw) (h : Nat) :
    get_counter_size hw h = counter_instance_count hw h := by
  rw [get_counter_size, counter_instance_count, List.prod_eq_foldl, List.foldl_map]

lemma resolve_counters_handles (hw : Hw) (cs : List String) :
    (resolve_counters hw cs).1 = cs.filterMap (fun c => assocFind hw.supported c) := by
  induction cs with
  | nil => rfl
  | cons c rest ih =>
    cases hc : assocFind hw.supported c <;>
      simp [resolve_counters, hc, List.filterMap_cons, ih]

lemma resolve_counters_size (hw : Hw) (cs : List String) :
    (resolve_counters hw cs).2.1 = spec_expected_record_count hw cs := by
  induction cs with
  | nil => rfl
  | cons c rest ih =>
    cases hc : assocFind hw.supported c <;>
      simp [resolve_counters, hc, spec_expected_record_count, List.filterMap_cons, ih,
        get_counter_size_eq_prod]

lemma resolve_counters_warnings (hw : Hw) (cs : List String) :
    (resolve_counters hw cs).2.2 =
      (cs.filter (fun c => (assocFind hw.supported c).isNone)).map
        (fun c => "Counter " ++ c ++ " not found") := by
  induction cs with
  | nil => rfl
  | cons c rest ih =>
    cases hc : assocFind hw.supported c <;>
      simp [resolve_counters, hc, List.filter_cons, ih]

/-! ### Catalog lemmas -/

lemma query_counters_loop_success (hw : Hw) (handles : List Nat) :
    ∀ out, (∀ c ∈ handles, hw.queryCounterInfoStatus c = 0) →
      query_counters_loop hw out handles =
        .ok (handles.foldl (fun m c => emplaceAssoc m (hw.counterName c) c) out) := by
  induction handles with
  | nil => intro out _; rfl
  | cons c rest ih =>
    intro out hall
    have h0 := hall c (List.mem_cons_self _ _)
    simp [query_counters_loop, rocprofiler_call, h0,
      ih _ (fun x hx => hall x (List.mem_cons_of_mem _ hx))]

lemma get_supported_counters_success (hw : Hw)
    (hiter : hw.iterateCountersStatus = 0)
    (hquery : ∀ c ∈ hw.counterHandles, hw.queryCounterInfoStatus c = 0) :
    get_supported_counters hw = .ok hw.supported := by
  simp [get_supported_counters, rocprofiler_call, hiter,
    query_counters_loop_success hw hw.counterHandles [] hquery, Hw.supported]

lemma query_counters_loop_ok (hw : Hw) (handles : List Nat) :
    ∀ out m, query_counters_loop hw out handles = .ok m →
      m = handles.foldl (fun acc c => emplaceAssoc acc (hw.counterName c) c) out := by
  induction handles with
  | nil =>
    intro out m h
    injection h with h
    exact h.symm
  | cons c rest ih =>
    intro out m h
    by_cases hc : hw.queryCounterInfoStatus c ≠ 0
    · simp [query_counters_loop, rocprofiler_call, hc] at h
    · have hc0 : hw.queryCounterInfoStatus c = 0 := not_ne_iff.mp hc
      simp only [query_counters_loop, rocprofiler_call, hc0, ne_eq, not_true_eq_false,
        if_neg (fun hx : ¬(0 : Nat) = 0 => hx rfl)] at h
      rw [List.foldl_cons]
      exact ih _ m h

lemma get_supported_counters_ok (hw : Hw) (m : List (String × Nat))
    (h : get_supported_counters hw = .ok m) : m = hw.supported := by
  unfold get_supported_counters at h
  split at h
  next => exact Except.noConfusion h
  next => exact query_counters_loop_ok hw hw.counterHandles [] m h

lemma query_counters_loop_error (hw : Hw) (pre : List Nat) :
    ∀ out c post, (∀ x ∈ pre, hw.queryCounterInfoStatus x = 0) →
      hw.queryCounterInfoStatus c ≠ 0 →
      query_counters_loop hw out (pre ++ c :: post) = .error (rocErrMsg
        "rocprofiler_query_counter_info(counter, ROCPROFILER_COUNTER_INFO_VERSION_0, ...)"
        "Could not query info for counter"
        (hw.statusString (hw.queryCounterInfoStatus c))) := by
  induction pre with
  | nil =>
    intro out c post _ hc
    simp [query_counters_loop, rocprofiler_call, hc]
  | cons x rest ih =>
    intro out c post hall hc
    have hx := hall x (List.mem_cons_self _ _)
    simp [query_counters_loop, rocprofiler_call, hx,
      ih _ c post (fun y hy => hall y (List.mem_cons_of_mem _ hy)) hc]

/-! ### Characterisation of the two paths of `sample_counters` -/

lemma sample_counters_hit (hw : Hw) (st : CollectorState) (counters : List String)
    (prev : List Record) (p n : Nat)
    (hhit : assocFind st.cached_profiles counters = some p)
    (hn : assocFind st.profile_sizes p = some n) :
    sample_counters hw st counters prev =
      .ok ({ st with profile := p }, run_device_sample hw p n prev, []) := by
  simp [sample_counters, hhit, hn]

lemma sample_counters_miss (hw : Hw) (st : CollectorState) (counters : List String)
    (prev : List Record)
    (hmiss : assocFind st.cached_profiles counters = none)
    (hfresh : assocFind st.profile_sizes st.nextProfileHandle = none)
    (hiter : hw.iterateCountersStatus = 0)
    (hquery : ∀ c ∈ hw.counterHandles, hw.queryCounterInfoStatus c = 0)
    (hstat : hw.createProfileStatus (resolve_counters hw counters).1 = 0) :
    sample_counters hw st counters prev = .ok
      ({ cached_profiles := emplaceAssoc st.cached_profiles counters st.nextProfileHandle
         profile_sizes :=
           emplaceAssoc st.profile_sizes st.nextProfileHandle (resolve_counters hw counters).2.1
         id_to_name := st.id_to_name
         profile := st.nextProfileHandle
         nextProfileHandle := st.nextProfileHandle + 1 },
       run_device_sample hw st.nextProfileHandle (resolve_counters hw counters).2.1 prev,
       (resolve_counters hw counters).2.2) := by
  simp [sample_counters, hmiss, hstat, rocprofiler_call,
    get_supported_counters_success hw hiter hquery, emplaceAssoc_find_self _ hfresh]

/-! ### Validity-monitor lemmas -/

lemma loop_body_false (vals : Nat → List (String × Int)) (g : List Int) :
    ∀ i, (loop_body vals i g false).2 = false := by
  induction g with
  | nil => intro i; rfl
  | cons p rest ih =>
    intro i
    simp only [loop_body, ite_self]
    exact ih (i + 1)

lemma loop_body_true_iff (vals : Nat → List (String × Int)) (g : List Int) :
    ∀ i, ((loop_body vals i g true).2 = false ↔
      ∃ j, j < g.length ∧ lookupD (vals (i + j)) "GRBM_COUNT" < g.getD j 0) := by
  induction g with
  | nil => intro i; simp [loop_body]
  | cons p rest ih =>
    intro i
    by_cases h : lookupD (vals i) "GRBM_COUNT" < p
    · simp only [loop_body, if_pos h, loop_body_false, List.length_cons]
      constructor
      · intro _
        exact ⟨0, Nat.succ_pos _, by simpa using h⟩
      · intro _
        trivial
    · simp only [loop_body, if_neg h, List.length_cons]
      rw [ih (i + 1)]
      constructor
      · rintro ⟨j, hj, hlt⟩
        refine ⟨j + 1, by omega, ?_⟩
        have hidx : i + (j + 1) = i + 1 + j := by omega
        rw [hidx]
        simpa using hlt
      · rintro ⟨j, hj, hlt⟩
        cases j with
        | zero => exact absurd (by simpa using hlt) h
        | succ j' =>
          refine ⟨j', by omega, ?_⟩
          have hidx : i + 1 + j' = i + (j' + 1) := by omega
          rw [hidx]
          simpa using hlt

lemma run_loop_false (l : List (Nat → List (String × Int))) :
    ∀ g, (run_loop g false l).2 = false := by
  induction l with
  | nil => intro g; rfl
  | cons vals rest ih =>
    intro g
    simp only [run_loop, loop_body_false vals g 0]
    exact ih _

lemma getLast?_append_singleton (l : List String) (v : String) :
    (l ++ [v]).getLast? = some v := by
  induction l with
  | nil => rfl
  | cons a rest ih => simp [List.getLast?_cons, ih]

/-! ### Handle-to-name index lemmas -/

lemma process_records_go_filter (hw : Hw) (records : List Record) :
    ∀ (st : CollectorState) (acc : List (String × Int)),
      process_records_go hw st acc records =
        process_records_go hw st acc (records.filter (fun r => r.id != 0)) := by
  induction records with
  | nil => intro st acc; rfl
  | cons r rest ih =>
    intro st acc
    by_cases h : r.id = 0
    · simp only [List.filter_cons, h, bne_self_eq_false, if_false, process_records_go,
        ne_eq, not_true_eq_false, ite_false, if_neg (fun hx : ¬(0 : Nat) = 0 => hx rfl)]
      exact ih st acc
    · have hb : (r.id != 0) = true := by simpa using h
      simp only [List.filter_cons, hb, if_pos, process_records_go, ne_eq, h,
        not_false_eq_true, ite_true]
      rcases hdec : decode_record_name hw st r with ⟨st', oname⟩
      cases oname with
      | none => rfl
      | some name => exact ih st' (addToMap acc name r.counter_value)

/-! ### Claims -/

/-- C1: on a fresh Counter Request the profile cache stores, with the new
profile, an expected record count equal to the sum over the successfully
resolved counters of the product of their dimension instance sizes; that
stored count is the buffer capacity used on every subsequent sample with the
same request. -/
theorem claim_C1 (hw : Hw) (st : CollectorState) (counters : List String) (prev : List Record)
    (hmiss : assocFind st.cached_profiles counters = none)
    (hfresh : assocFind st.profile_sizes st.nextProfileHandle = none)
    (hiter : hw.iterateCountersStatus = 0)
    (hquery : ∀ c ∈ hw.counterHandles, hw.queryCounterInfoStatus c = 0)
    (hstat : hw.createProfileStatus (resolve_counters hw counters).1 = 0) :
    ∃ st1 out w, sample_counters hw st counters prev = .ok (st1, out, w) ∧
      assocFind st1.cached_profiles counters = some st1.profile ∧
      assocFind st1.profile_sizes st1.profile =
        some (spec_expected_record_count hw counters) ∧
      ∀ prev2, ∃ st2 out2 w2, sample_counters hw st1 counters prev2 = .ok (st2, out2, w2) ∧
        out2 = run_device_sample hw st1.profile (spec_expected_record_count hw counters) prev2 := by
  have hs := sample_counters_miss hw st counters prev hmiss hfresh hiter hquery hstat
  refine ⟨_, _, _, hs, ?_, ?_, ?_⟩
  · exact emplaceAssoc_find_self _ hmiss
  · rw [← resolve_counters_size hw counters]
    exact emplaceAssoc_find_self _ hfresh
  · intro prev2
    refine ⟨_, _, _,
      sample_counters_hit hw _ counters prev2 st.nextProfileHandle
        (resolve_counters hw counters).2.1
        (emplaceAssoc_find_self _ hmiss) (emplaceAssoc_find_self _ hfresh), ?_⟩
    rw [resolve_counters_size hw counters]

/-- C1 witness: the theorem applied to the concrete hardware model `hwA`,
the initial collector state and the request `["GRBM_COUNT"]`. -/
theorem claim_C1_witness :
    assocFind init_collector_state.cached_profiles ["GRBM_COUNT"] = none ∧
    assocFind init_collector_state.profile_sizes init_collector_state.nextProfileHandle = none ∧
    hwA.iterateCountersStatus = 0 ∧
    (∀ c ∈ hwA.counterHandles, hwA.queryCounterInfoStatus c = 0) ∧
    hwA.createProfileStatus (resolve_counters hwA ["GRBM_COUNT"]).1 = 0 ∧
    (∃ st1 out w, sample_counters hwA init_collector_state ["GRBM_COUNT"] [] = .ok (st1, out, w) ∧
      assocFind st1.cached_profiles ["GRBM_COUNT"] = some st1.profile ∧
      assocFind st1.profile_sizes st1.profile =
        some (spec_expected_record_count hwA ["GRBM_COUNT"]) ∧
      ∀ prev2, ∃ st2 out2 w2,
        sample_counters hwA st1 ["GRBM_COUNT"] prev2 = .ok (st2, out2, w2) ∧
        out2 = run_device_sample hwA st1.profile
          (spec_expected_record_count hwA ["GRBM_COUNT"]) prev2) :=
  ⟨rfl, rfl, rfl, by decide, rfl,
    claim_C1 hwA init_collector_state ["GRBM_COUNT"] [] rfl rfl rfl (by decide) rfl⟩

/-- C2: within a polling pass an already-INVALID state stays INVALID; across
passes INVALID never recovers; a pass started VALID ends INVALID exactly when
some device's `GRBM_COUNT` reading strictly decreased against that device's
previous value; and a run with no polling passes (only the baseline-seeding
start block) stays VALID: the first sample performs no check. -/
theorem claim_C2 :
    (∀ (vals : Nat → List (String × Int)) (i : Nat) (g : List Int),
      (loop_body vals i g false).2 = false) ∧
    (∀ (g : List Int) (l : List (Nat → List (String × Int))),
      (run_loop g false l).2 = false) ∧
    (∀ (vals : Nat → List (String × Int)) (i : Nat) (g : List Int),
      ((loop_body vals i g true).2 = false ↔
        ∃ j, j < g.length ∧ lookupD (vals (i + j)) "GRBM_COUNT" < g.getD j 0)) ∧
    (∀ (s e : List (List (String × Int))), (main_model s [] e).2.1 = true) :=
  ⟨fun vals i g => loop_body_false vals g i,
   fun g l => run_loop_false l g,
   fun vals i g => loop_body_true_iff vals g i,
   fun _ _ => rfl⟩

/-- C3: sampling the same counter-name sequence twice returns the same cached
profile handle and the same expected record count both times, and the second
call leaves the cache untouched (the cache key is the exact name sequence). -/
theorem claim_C3 (hw : Hw) (st : CollectorState) (counters : List String)
    (prev1 prev2 : List Record)
    (hmiss : assocFind st.cached_profiles counters = none)
    (hfresh : assocFind st.profile_sizes st.nextProfileHandle = none)
    (hiter : hw.iterateCountersStatus = 0)
    (hquery : ∀ c ∈ hw.counterHandles, hw.queryCounterInfoStatus c = 0)
    (hstat : hw.createProfileStatus (resolve_counters hw counters).1 = 0) :
    ∃ st1 out1 w1 st2 out2 w2,
      sample_counters hw st counters prev1 = .ok (st1, out1, w1) ∧
      sample_counters hw st1 counters prev2 = .ok (st2, out2, w2) ∧
      st2.profile = st1.profile ∧
      st2.cached_profiles = st1.cached_profiles ∧
      st2.profile_sizes = st1.profile_sizes ∧
      assocFind st1.profile_sizes st1.profile =
        some (spec_expected_record_count hw counters) ∧
      assocFind st2.profile_sizes st2.profile =
        some (spec_expected_record_count hw counters) := by
  have hs := sample_counters_miss hw st counters prev1 hmiss hfresh hiter hquery hstat
  have hsz : assocFind
      (emplaceAssoc st.profile_sizes st.nextProfileHandle (resolve_counters hw counters).2.1)
      st.nextProfileHandle = some ((resolve_counters hw counters).2.1) :=
    emplaceAssoc_find_self _ hfresh
  refine ⟨_, _, _, _, _, _, hs,
    sample_counters_hit hw _ counters prev2 st.nextProfileHandle
      (resolve_counters hw counters).2.1 (emplaceAssoc_find_self _ hmiss) hsz,
    rfl, rfl, rfl, ?_, ?_⟩
  · rw [← resolve_counters_size hw counters]
    exact hsz
  · rw [← resolve_counters_size hw counters]
    exact hsz

/-- C3 witness: the theorem applied to `hwA`, the initial state and the
two-name request `["GRBM_COUNT", "SQ_WAVES"]`. -/
theorem claim_C3_witness :
    assocFind init_collector_state.cached_profiles ["GRBM_COUNT", "SQ_WAVES"] = none ∧
    hwA.iterateCountersStatus = 0 ∧
    (∀ c ∈ hwA.counterHandles, hwA.queryCounterInfoStatus c = 0) ∧
    (∃ st1 out1 w1 st2 out2 w2,
      sample_counters hwA init_collector_state ["GRBM_COUNT", "SQ_WAVES"] [] =
        .ok (st1, out1, w1) ∧
      sample_counters hwA st1 ["GRBM_COUNT", "SQ_WAVES"] [] = .ok (st2, out2, w2) ∧
      st2.profile = st1.profile ∧
      st2.cached_profiles = st1.cached_profiles ∧
      st2.profile_sizes = st1.profile_sizes ∧
      assocFind st1.profile_sizes st1.profile =
        some (spec_expected_record_count hwA ["GRBM_COUNT", "SQ_WAVES"]) ∧
      assocFind st2.profile_sizes st2.profile =
        some (spec_expected_record_count hwA ["GRBM_COUNT", "SQ_WAVES"])) :=
  ⟨rfl, rfl, by decide,
    claim_C3 hwA init_collector_state ["GRBM_COUNT", "SQ_WAVES"] [] [] rfl rfl rfl
      (by decide) rfl⟩

/-- C4: unknown counter names never make `sample_counters` fail: each unknown
name yields a "Counter ... not found" warning and is omitted (the profile is
created from the resolved handles only, so the expected count sums over
resolved counters), and an all-unknown request yields zero records and an
empty aggregated mapping. -/
theorem claim_C4 (hw : Hw) (st : CollectorState) (counters : List String) (prev : List Record)
    (hmiss : assocFind st.cached_profiles counters = none)
    (hfresh : assocFind st.profile_sizes st.nextProfileHandle = none)
    (hiter : hw.iterateCountersStatus = 0)
    (hquery : ∀ c ∈ hw.counterHandles, hw.queryCounterInfoStatus c = 0)
    (hstat : hw.createProfileStatus
      (counters.filterMap (fun c => assocFind hw.supported c)) = 0)
    (hWF : ∀ p c, hw.sampleActual p c ≤ c) :
    ∃ st1 out,
      sample_counters hw st counters prev = .ok (st1, out,
        (counters.filter (fun c => (assocFind hw.supported c).isNone)).map
          (fun c => "Counter " ++ c ++ " not found")) ∧
      assocFind st1.profile_sizes st1.profile =
        some (spec_expected_record_count hw counters) ∧
      ((∀ c ∈ counters, assocFind hw.supported c = none) →
        out = [] ∧ (process_records hw st1 out).2 = some []) := by
  have hstat' : hw.createProfileStatus (resolve_counters hw counters).1 = 0 := by
    rw [resolve_counters_handles]
    exact hstat
  have hs := sample_counters_miss hw st counters prev hmiss hfresh hiter hquery hstat'
  rw [resolve_counters_warnings] at hs
  refine ⟨_, _, hs, ?_, ?_⟩
  · rw [← resolve_counters_size hw counters]
    exact emplaceAssoc_find_self _ hfresh
  · intro hall
    have hn0 : (resolve_counters hw counters).2.1 = 0 := by
      rw [resolve_counters_size, spec_expected_record_count,
        List.filterMap_eq_nil_iff.mpr (fun c hc => hall c hc)]
      rfl
    rw [hn0]
    have h0 : run_device_sample hw st.nextProfileHandle 0 prev = [] :=
      List.length_eq_zero.mp
        (by rw [run_device_sample_length]; exact Nat.le_zero.mp (hWF _ 0))
    rw [h0]
    exact ⟨rfl, rfl⟩

/-- C4 witness: the theorem applied to `hwA` and the all-unknown request
`["FOO", "BAR"]`. -/
theorem claim_C4_witness :
    assocFind init_collector_state.cached_profiles ["FOO", "BAR"] = none ∧
    hwA.iterateCountersStatus = 0 ∧
    (∀ c ∈ hwA.counterHandles, hwA.queryCounterInfoStatus c = 0) ∧
    hwA.createProfileStatus
      (["FOO", "BAR"].filterMap (fun c => assocFind hwA.supported c)) = 0 ∧
    (∀ p c, hwA.sampleActual p c ≤ c) ∧
    (∃ st1 out,
      sample_counters hwA init_collector_state ["FOO", "BAR"] [] = .ok (st1, out,
        (["FOO", "BAR"].filter (fun c => (assocFind hwA.supported c).isNone)).map
          (fun c => "Counter " ++ c ++ " not found")) ∧
      assocFind st1.profile_sizes st1.profile =
        some (spec_expected_record_count hwA ["FOO", "BAR"]) ∧
      ((∀ c ∈ ["FOO", "BAR"], assocFind hwA.supported c = none) →
        out = [] ∧ (process_records hwA st1 out).2 = some [])) :=
  ⟨rfl, rfl, by decide, rfl, fun _ c => Nat.le_refl c,
    claim_C4 hwA init_collector_state ["FOO", "BAR"] [] rfl rfl rfl (by decide) rfl
      (fun _ c => Nat.le_refl c)⟩

/-- C5: every successful sample returns at most the cached expected record
count for its request: the output buffer is sized to the stored expected
count and the result is resized to the actual count the hardware reports,
which under the hardware contract never exceeds the capacity. -/
theorem claim_C5 (hw : Hw) (st : CollectorState) (counters : List String) (prev : List Record)
    (st' : CollectorState) (out : List Record) (w : List String)
    (hWF : ∀ p c, hw.sampleActual p c ≤ c)
    (h : sample_counters hw st counters prev = .ok (st', out, w)) :
    ∃ n, assocFind st'.profile_sizes st'.profile = some n ∧
      out.length = hw.sampleActual st'.profile n ∧ out.length ≤ n := by
  unfold sample_counters at h
  split at h
  next p hp =>
    split at h
    next => exact Except.noConfusion h
    next n hn =>
      injection h with h
      injection h with h1 h2
      injection h2 with h2 h3
      subst h1 h2
      exact ⟨n, hn, run_device_sample_length hw p n prev,
        (run_device_sample_length hw p n prev) ▸ hWF p n⟩
  next hp =>
    split at h
    next => exact Except.noConfusion h
    next =>
      split at h
      next => exact Except.noConfusion h
      next =>
        dsimp only at h
        split at h
        next => exact Except.noConfusion h
        next n hn =>
          injection h with h
          injection h with h1 h2
          injection h2 with h2 h3
          subst h1 h2
          exact ⟨n, hn, run_device_sample_length hw st.nextProfileHandle n prev,
            (run_device_sample_length hw st.nextProfileHandle n prev) ▸
              hWF st.nextProfileHandle n⟩

/-- The collector state produced by sampling `["GRBM_COUNT"]` on `hwA` from
the initial state. -/
def c5_st1 : CollectorState :=
  { cached_profiles := [(["GRBM_COUNT"], 1)], profile_sizes := [(1, 2)], id_to_name := [],
    profile := 1, nextProfileHandle := 2 }

/-- The records that sample returns. -/
def c5_out : List Record :=
  [{ id := 100, counter_value := 5 }, { id := 100, counter_value := 5 }]

/-- C5 witness: the theorem applied to the concrete sample above. -/
theorem claim_C5_witness :
    (∀ p c, hwA.sampleActual p c ≤ c) ∧
    sample_counters hwA init_collector_state ["GRBM_COUNT"] [] = .ok (c5_st1, c5_out, []) ∧
    (∃ n, assocFind c5_st1.profile_sizes c5_st1.profile = some n ∧
      c5_out.length = hwA.sampleActual c5_st1.profile n ∧ c5_out.length ≤ n) :=
  ⟨fun _ c => Nat.le_refl c, rfl,
    claim_C5 hwA init_collector_state ["GRBM_COUNT"] [] c5_st1 c5_out []
      (fun _ c => Nat.le_refl c) rfl⟩

/-- C6: every checked hardware-layer call made during collector construction
or profile creation that reports a non-success status aborts the operation
with a propagated failure carrying the failing operation's stringified call,
its message and its status string; no such path continues past the failure.
The checked calls are: `rocprofiler_create_context` and
`rocprofiler_configure_device_counting_service` in the constructor, and
`rocprofiler_iterate_agent_supported_counters`,
`rocprofiler_query_counter_info` (both inside `get_supported_counters`) and
`rocprofiler_create_profile_config` on the cache-miss (profile-creation)
path of `sample_counters`. -/
theorem claim_C6 (hw : Hw) (st : CollectorState) (counters : List String) (prev : List Record) :
    (hw.createContextStatus ≠ 0 →
      device_collector_init hw = .error (rocErrMsg "rocprofiler_create_context(&ctx_)"
        "context creation failed" (hw.statusString hw.createContextStatus))) ∧
    (hw.createContextStatus = 0 → hw.configureStatus ≠ 0 →
      device_collector_init hw = .error (rocErrMsg
        "rocprofiler_configure_device_counting_service(ctx_, ...)"
        "Could not setup buffered service" (hw.statusString hw.configureStatus))) ∧
    (assocFind st.cached_profiles counters = none →
      hw.iterateCountersStatus ≠ 0 →
      sample_counters hw st counters prev = .error (rocErrMsg
        "rocprofiler_iterate_agent_supported_counters(agent, ..., &gpu_counters)"
        "Could not fetch supported counters"
        (hw.statusString hw.iterateCountersStatus))) ∧
    (assocFind st.cached_profiles counters = none →
      hw.iterateCountersStatus = 0 →
      ∀ pre c post, hw.counterHandles = pre ++ c :: post →
        (∀ x ∈ pre, hw.queryCounterInfoStatus x = 0) →
        hw.queryCounterInfoStatus c ≠ 0 →
        sample_counters hw st counters prev = .error (rocErrMsg
          "rocprofiler_query_counter_info(counter, ROCPROFILER_COUNTER_INFO_VERSION_0, ...)"
          "Could not query info for counter"
          (hw.statusString (hw.queryCounterInfoStatus c)))) ∧
    (assocFind st.cached_profiles counters = none →
      hw.iterateCountersStatus = 0 →
      (∀ c ∈ hw.counterHandles, hw.queryCounterInfoStatus c = 0) →
      hw.createProfileStatus (resolve_counters hw counters).1 ≠ 0 →
      sample_counters hw st counters prev = .error (rocErrMsg
        "rocprofiler_create_profile_config(agent_, gpu_counters.data(), gpu_counters.size(), &profile)"
        "Could not create profile"
        (hw.statusString (hw.createProfileStatus (resolve_counters hw counters).1)))) := by
  refine ⟨?_, ?_, ?_, ?_, ?_⟩
  · intro h
    simp [device_collector_init, rocprofiler_call, h]
  · intro h0 h
    simp [device_collector_init, rocprofiler_call, h0, h]
  · intro hmiss h
    simp [sample_counters, hmiss, get_supported_counters, rocprofiler_call, h]
  · intro hmiss h0 pre c post hhandles hpre hc
    simp [sample_counters, hmiss, get_supported_counters, rocprofiler_call, h0, hhandles,
      query_counters_loop_error hw pre [] c post hpre hc]
  · intro hmiss h0 hq h
    simp [sample_counters, hmiss, rocprofiler_call,
      get_supported_counters_success hw h0 hq, h]

/-- C6 witness: the theorem applied to hardware models whose context
creation, counting-service configuration, supported-counter iteration,
counter-info query and profile creation fail. -/
theorem claim_C6_witness :
    (hwBadCtx.createContextStatus ≠ 0 ∧
      device_collector_init hwBadCtx = .error (rocErrMsg "rocprofiler_create_context(&ctx_)"
        "context creation failed" (hwBadCtx.statusString hwBadCtx.createContextStatus))) ∧
    (hwBadCfg.configureStatus ≠ 0 ∧
      device_collector_init hwBadCfg = .error (rocErrMsg
        "rocprofiler_configure_device_counting_service(ctx_, ...)"
        "Could not setup buffered service" (hwBadCfg.statusString hwBadCfg.configureStatus))) ∧
    (hwBadIter.iterateCountersStatus ≠ 0 ∧
      sample_counters hwBadIter init_collector_state ["GRBM_COUNT"] [] = .error (rocErrMsg
        "rocprofiler_iterate_agent_supported_counters(agent, ..., &gpu_counters)"
        "Could not fetch supported counters"
        (hwBadIter.statusString hwBadIter.iterateCountersStatus))) ∧
    (hwBadQuery.queryCounterInfoStatus 11 ≠ 0 ∧
      sample_counters hwBadQuery init_collector_state ["GRBM_COUNT"] [] = .error (rocErrMsg
        "rocprofiler_query_counter_info(counter, ROCPROFILER_COUNTER_INFO_VERSION_0, ...)"
        "Could not query info for counter"
        (hwBadQuery.statusString (hwBadQuery.queryCounterInfoStatus 11)))) ∧
    (hwBadProf.createProfileStatus (resolve_counters hwBadProf ["GRBM_COUNT"]).1 ≠ 0 ∧
      sample_counters hwBadProf init_collector_state ["GRBM_COUNT"] [] = .error (rocErrMsg
        "rocprofiler_create_profile_config(agent_, gpu_counters.data(), gpu_counters.size(), &profile)"
        "Could not create profile"
        (hwBadProf.statusString
          (hwBadProf.createProfileStatus (resolve_counters hwBadProf ["GRBM_COUNT"]).1)))) :=
  ⟨⟨by decide, (claim_C6 hwBadCtx init_collector_state [] []).1 (by decide)⟩,
   ⟨by decide, (claim_C6 hwBadCfg init_collector_state [] []).2.1 rfl (by decide)⟩,
   ⟨by decide, (claim_C6 hwBadIter init_collector_state ["GRBM_COUNT"] []).2.2.1
      rfl (by decide)⟩,
   ⟨by decide, (claim_C6 hwBadQuery init_collector_state ["GRBM_COUNT"] []).2.2.2.1
      rfl rfl [10] 11 [] rfl (by decide) (by decide)⟩,
   ⟨by decide, (claim_C6 hwBadProf init_collector_state ["GRBM_COUNT"] []).2.2.2.2
      rfl rfl (by decide) (by decide)⟩⟩

/-- C7: the modelled `main` always exits with status 0; after the polling
loop ends its output is the start block followed by the `end:` block and a
trailing `valid: 1`/`valid: 0` line reflecting the final validity state. -/
theorem claim_C7 (s : List (List (String × Int))) (l : List (Nat → List (String × Int)))
    (e : List (List (String × Int))) :
    (main_model s l e).2.2 = 0 ∧
    (main_model s l e).1 =
      (start_block s).1 ++ ("end:" :: (e.map print_values).flatten)
        ++ ["valid: " ++ (if (run_loop (start_block s).2 true l).2 then "1" else "0")] ∧
    (main_model s l e).1.getLast? =
      some ("valid: " ++ (if (main_model s l e).2.1 then "1" else "0")) := by
  refine ⟨rfl, rfl, ?_⟩
  simp only [main_model]
  exact getLast?_append_singleton _ _

/-- C9: agent enumeration raises a fatal error on an unexpected schema
version; any successful enumeration keeps only GPU-type agents; and with
zero enumerated accelerator devices `tool_init` reports "No agents found"
and returns the non-zero value -1. -/
theorem claim_C9 (hw : Hw) :
    (hw.enumVersion ≠ ROCPROFILER_AGENT_INFO_VERSION_0 →
      get_agents hw = .error "unexpected rocprofiler agent version") ∧
    (∀ agents, get_agents hw = .ok agents →
      agents = hw.enumAgents.filter (fun a => a.type == ROCPROFILER_AGENT_TYPE_GPU) ∧
      ∀ a ∈ agents, a.type = ROCPROFILER_AGENT_TYPE_GPU) ∧
    (get_agents hw = .ok [] →
      tool_init hw = .ok (-1, ["No agents found"]) ∧ (-1 : Int) ≠ 0) := by
  refine ⟨?_, ?_, ?_⟩
  · intro h
    simp [get_agents, h]
  · intro agents h
    unfold get_agents at h
    split at h
    next => exact Except.noConfusion h
    next =>
      split at h
      next => exact Except.noConfusion h
      next =>
        injection h with h
        subst h
        refine ⟨rfl, ?_⟩
        intro a ha
        have hm := List.mem_filter.mp ha
        simpa using hm.2
  · intro h
    exact ⟨by simp [tool_init, h], by decide⟩

/-- C9 witness: the theorem applied to a bad-version hardware model, a
CPU-only system (no GPUs) and the two-agent system `hwA`. -/
theorem claim_C9_witness :
    (hwBadVer.enumVersion ≠ ROCPROFILER_AGENT_INFO_VERSION_0 ∧
      get_agents hwBadVer = .error "unexpected rocprofiler agent version") ∧
    (get_agents hwNoGpu = .ok [] ∧
      tool_init hwNoGpu = .ok (-1, ["No agents found"]) ∧ (-1 : Int) ≠ 0) ∧
    (get_agents hwA = .ok [{ type := ROCPROFILER_AGENT_TYPE_GPU, id := 0 }] ∧
      ∀ a ∈ [({ type := ROCPROFILER_AGENT_TYPE_GPU, id := 0 } : AgentInfo)],
        a.type = ROCPROFILER_AGENT_TYPE_GPU) :=
  ⟨⟨by decide, (claim_C9 hwBadVer).1 (by decide)⟩,
   ⟨rfl, (claim_C9 hwNoGpu).2.2 rfl⟩,
   ⟨rfl, ((claim_C9 hwA).2.1 _ rfl).2⟩⟩

/-- C10: record aggregation skips every record whose id is zero: processing a
record list gives exactly the same state and aggregated mapping as processing
only its records with non-zero id, so zero-id records contribute to no
counter's total and introduce no mapping key. -/
theorem claim_C10 (hw : Hw) (st : CollectorState) (records : List Record) :
    process_records hw st records =
      process_records hw st (records.filter (fun r => r.id != 0)) :=
  process_records_go_filter hw records st []

end PmcCollector
